import Mathlib

/-!
Verification development for `change_wallpaper_reddit.py` (Daily-Reddit-Wallpaper).

The Python source is shallowly embedded: pure string manipulations become Lean
functions on `String`/`List Char`; interactions with external libraries
(`requests`, `configparser`, the filesystem) are modelled by passing the
observable outcome of the external call (HTTP status and body, parsed INI
options, file-existence flag) as explicit input, while every decision made by
the code of the repository itself is translated faithfully.
-/

/-! ## String helpers mirroring Python `str` operations

All helpers are written by structural recursion on `List Char` so that every
definition evaluates by kernel reduction on concrete inputs. -/

/-- Boolean prefix test on character lists (helper for substring search). -/
def listPrefixCheck : List Char → List Char → Bool
  | [], _ => true
  | _ :: _, [] => false
  | a :: as, b :: bs => a == b && listPrefixCheck as bs

/-- Boolean substring search on character lists (helper for Python `in`). -/
def listInfixCheck (needle : List Char) : List Char → Bool
  | [] => listPrefixCheck needle []
  | c :: t => listPrefixCheck needle (c :: t) || listInfixCheck needle t

/-- Python `pat in s` for strings: `pat` occurs as a contiguous substring of `s`. -/
def strContains (s pat : String) : Bool :=
  listInfixCheck pat.toList s.toList

/-- Python `s.endswith(pat)`: `pat` is a suffix of `s`. -/
def strEndsWith (s pat : String) : Bool :=
  listPrefixCheck pat.toList.reverse s.toList.reverse

/-- Python `s.lower()` (ASCII case mapping, which covers every string the
program itself builds or compares). -/
def strLower (s : String) : String :=
  (s.toList.map Char.toLower).asString

/-- Split a character list at every occurrence of `sep`; the result always has
at least one group, matching Python `s.split(sep)`. -/
def splitOnChar (sep : Char) : List Char → List (List Char)
  | [] => [[]]
  | c :: rest =>
    let r := splitOnChar sep rest
    if c == sep then [] :: r
    else
      match r with
      | [] => [[c]]
      | g :: gs => (c :: g) :: gs

/-- Python `s.split(sep)` for a one-character separator (the program only ever
splits on `"?"`, `"."` and `"/"`). -/
def strSplitOn (sep : Char) (s : String) : List String :=
  (splitOnChar sep s.toList).map List.asString

/-- Join groups with a separator character: inverse of `splitOnChar`. -/
def joinWithChar (sep : Char) : List (List Char) → List Char
  | [] => []
  | [g] => g
  | g :: gs => g ++ sep :: joinWithChar sep gs

/-- Join strings with a one-character separator (Python `sep.join(xs)`). -/
def strJoin (sep : Char) (xs : List String) : String :=
  (joinWithChar sep (xs.map String.toList)).asString

/-- Model of `URL_STRIP_PATTERN.sub` applied to a URL, where the pattern is a
question mark followed by the rest of the line:
drop everything from the first `?` on (URLs contain no newline, so the regex
behaviour coincides with truncation at the first `?`). -/
def stripQuery (s : String) : String :=
  (strSplitOn '?' s).headD s

/-- Python `s.rsplit(sep, 1)`: split off the part after the last occurrence of
`sep`; a string not containing `sep` yields the one-element list `[s]`. -/
def rsplit1 (sep : Char) (s : String) : List String :=
  match strSplitOn sep s with
  | [] => [s]
  | [x] => [x]
  | parts => [strJoin sep parts.dropLast, parts.getLastD ""]

/-- Python truthiness of an optional string: `None` and `""` are falsy. -/
def pyStrFalsy : Option String → Bool
  | none => true
  | some s => s == ""

/-! ## Data model: parsed arguments and API submissions -/

/-- The fields of `parse_args()` consumed by the functions under study. -/
structure Args where
  subreddit : String
  time : String
  nsfw : Bool
  display : Int
  output : String
  sort : String
  limit : Int
  random : Bool
  flair : String
  client_id : Option String
  api_key : Option String
deriving Repr

/-- One submission record as exposed by the Reddit API client: the attributes
`get_top_image` reads (`id`, `subreddit.display_name`, `url`, `over_18`,
`link_flair_text`; the flair may be absent). -/
structure Post where
  id : String
  subredditName : String
  url : String
  over_18 : Bool
  link_flair_text : Option String
deriving DecidableEq, Repr

/-- The dict returned by `get_top_image` on success. -/
structure Candidate where
  id : String
  subreddit : String
  url : String
  type : String
deriving DecidableEq, Repr

/-! ## URL classification (body of the loop in `get_top_image`, lines 187-211) -/

/-- The URL-classification step of `get_top_image`: strip the query string,
compute `url.split(".")[-1].lower()`, then
* if the stripped URL ends in `.jpg` / `.png` / `.jpeg`, return it unchanged
  with that extension;
* else, if it is an Imgur link outside `/a/` albums and `/gallery/`, drop a
  trailing `/new` segment and rebuild `http://i.imgur.com/<id>.jpg`
  (in Python, `url.rsplit("/", 1)[1]` on a slash-free URL raises IndexError;
  that unreachable-in-practice index is modelled as `""`);
* any other URL is rejected (`none`): the loop moves on to the next post. -/
def classifyUrl (rawUrl : String) : Option (String × String) :=
  let url := stripQuery rawUrl
  let file_extension := strLower ((strSplitOn '.' url).getLastD "")
  if strEndsWith url ".jpg" || strEndsWith url ".png" || strEndsWith url ".jpeg" then
    some (url, file_extension)
  else if strContains url "imgur.com" && !strContains url "/a/" &&
      !strContains url "/gallery/" then
    let url2 := if strEndsWith url "/new" then (rsplit1 '/' url).headD "" else url
    let id_toget := (rsplit1 '.' ((rsplit1 '/' url2).getD 1 "")).headD ""
    some ("http://i.imgur.com/" ++ id_toget ++ ".jpg", "jpg")
  else
    none

/-- The flair-filter test of `get_top_image` (lines 181-185): skip the post when
a flair filter is configured and the flair text of the post is absent/empty or does
not contain the filter case-insensitively. -/
def flairSkip (args : Args) (p : Post) : Bool :=
  args.flair != "" &&
    (pyStrFalsy p.link_flair_text ||
      !strContains (strLower (p.link_flair_text.getD "")) (strLower args.flair))

/-- The success dict built by `get_top_image` from a post and its classified
URL/extension pair. -/
def mkCandidate (p : Post) (uc : String × String) : Candidate :=
  { id := p.id, subreddit := p.subredditName, url := uc.1, type := uc.2 }

/-- The `for submission in submissions` loop of `get_top_image`: skip NSFW posts
unless allowed, skip posts failing the flair filter, return the first post
whose URL classifies, and `None` when the batch is exhausted. -/
def get_top_image_loop (args : Args) : List Post → Option Candidate
  | [] => none
  | p :: rest =>
    if !args.nsfw && p.over_18 then get_top_image_loop args rest
    else if flairSkip args p then get_top_image_loop args rest
    else
      match classifyUrl p.url with
      | some uc => some (mkCandidate p uc)
      | none => get_top_image_loop args rest

/-- Model of `get_top_image`: the retrieved batch is evaluated in API order, or — when
`args.random` is set — in the shuffled order (`sorted(submissions, key=lambda
k: random.random())`), here supplied explicitly as `shuffled`. -/
def get_top_image (args : Args) (retrieved shuffled : List Post) :
    Option Candidate :=
  let submissions := if args.random then shuffled else retrieved
  get_top_image_loop args submissions

/-- A post survives all three filters: it is allowed by the NSFW setting, passes
the flair filter, and its URL classifies as a usable image. -/
def survives (args : Args) (p : Post) : Bool :=
  (args.nsfw || !p.over_18) && !flairSkip args p && (classifyUrl p.url).isSome

/-- Specification-side selector, following the words of the spec: return the first
post of the evaluated order surviving all filters (mapped to its result dict),
or signal "no candidate found" when the batch is exhausted. -/
def selectSpec (args : Args) (evaluated : List Post) : Option Candidate :=
  (evaluated.find? (survives args)).bind fun p =>
    (classifyUrl p.url).map (mkCandidate p)

/-! ## Configuration loading (`load_config`, lines 41-77) -/

/-- The options record built by `load_config` (the `display` and `limit` fields
are the integers produced by `conf.getint`). -/
structure Config where
  subreddit : String
  nsfw : Bool
  time : String
  display : Int
  output : String
  sort : String
  limit : Int
  random : Bool
  flair : String
deriving DecidableEq, Repr

/-- The `DEFAULT_CONFIG` dict from the source, with `display` already as the integer the
`getint` getter produces from the default string `"0"`. -/
def DEFAULT_CONFIG : Config :=
  { subreddit := "wallpaper", nsfw := false, time := "all", display := 0,
    output := "Wallpapers", sort := "hot", limit := 20, random := false,
    flair := "" }

/-- The `getboolean` value conversion of `configparser` (`_convert_to_boolean`):
the lowercased value must be one of the eight boolean state strings, otherwise
`ValueError` (`none`). -/
def pyBoolean (s : String) : Option Bool :=
  let v := strLower s
  if v == "1" || v == "yes" || v == "true" || v == "on" then some true
  else if v == "0" || v == "no" || v == "false" || v == "off" then some false
  else none

/-- Trailing characters of a Python integer literal: decimal digits with single
underscores allowed only between digits. -/
def pyIntTail : List Char → Bool
  | [] => true
  | '_' :: rest =>
    match rest with
    | [] => false
    | c :: rest2 => c.isDigit && pyIntTail rest2
  | c :: rest => c.isDigit && pyIntTail rest

/-- Body of a Python integer literal after the optional sign: nonempty, starts
with a digit, then `pyIntTail`. -/
def pyIntBody : List Char → Bool
  | [] => false
  | c :: rest => c.isDigit && pyIntTail rest

/-- Decimal value of a digit list (underscores already removed). -/
def digitsVal (l : List Char) : Nat :=
  l.foldl (fun a c => a * 10 + (c.toNat - 48)) 0

/-- Strip ASCII whitespace from both ends of a character list (Python `int`
strips whitespace before parsing). -/
def listTrim (l : List Char) : List Char :=
  ((l.dropWhile Char.isWhitespace).reverse.dropWhile Char.isWhitespace).reverse

/-- Python `int(s)` on decimal strings: optional surrounding whitespace,
optional sign, digits with embedded single underscores; anything else raises
`ValueError` (`none`). -/
def pyInt (s : String) : Option Int :=
  match listTrim s.toList with
  | '+' :: rest =>
    if pyIntBody rest then some (Int.ofNat (digitsVal (rest.filter (· != '_'))))
    else none
  | '-' :: rest =>
    if pyIntBody rest then
      some (-Int.ofNat (digitsVal (rest.filter (· != '_'))))
    else none
  | l =>
    if pyIntBody l then some (Int.ofNat (digitsVal (l.filter (· != '_'))))
    else none

/-- The observable outcome of opening and `read_string`-parsing the rc file.
`configparser` itself is external library code, so it enters the model through
its result:
* `missing`  — `open` raised `IOError` (caught by `load_config`);
* `parseError` — `conf.read_string` raised, e.g. `configparser.ParsingError`
  for a non-blank non-comment line with no `=`/`:` delimiter (such as the
  one-line file `garbage`); this exception class is neither `IOError` nor
  `ValueError`/`TypeError`, so nothing in `load_config` catches it;
* `parsed opts` — parsing succeeded and section `root` holds the listed raw
  (uninterpolated) options, keys already lowercased by `optionxform`.
  `BasicInterpolation`, which the getters apply to these raw values at
  get-time, is modelled below. -/
inductive ConfigSource where
  | missing
  | parseError
  | parsed (opts : List (String × String))
deriving DecidableEq, Repr

/-- First binding of `key` among the parsed options of section `root`. -/
def lookupOpt (opts : List (String × String)) (key : String) : Option String :=
  (opts.find? (fun kv => kv.1 == key)).map (·.2)

/-- The defaults section that `ConfigParser(DEFAULT_CONFIG)` carries: every
`DEFAULT_CONFIG` entry with its value stringified by `read_dict`. -/
def CONFIG_DEFAULTS : List (String × String) :=
  [("subreddit", "wallpaper"), ("nsfw", "False"), ("time", "all"),
   ("display", "0"), ("output", "Wallpapers"), ("sort", "hot"),
   ("limit", "20"), ("random", "False"), ("flair", "")]

/-- The map `_unify_values` hands to the interpolation engine: section options
first, then the defaults section (raw values in both). -/
def unifiedLookup (opts : List (String × String)) (key : String) :
    Option String :=
  (lookupOpt opts key).orElse fun _ => lookupOpt CONFIG_DEFAULTS key

/-- The exceptions `BasicInterpolation` can raise from `before_get`
(`InterpolationSyntaxError`, `InterpolationMissingOptionError`,
`InterpolationDepthError`); none of them is an `IOError`, `ValueError` or
`TypeError`, so none is caught inside `load_config`. -/
inductive InterpError where
  | badPercent
  | missingOption
  | depthError
deriving DecidableEq, Repr

/-- Split a character list at its first `)`: the `([^)]+)` part of the
`_KEYCRE` regex `%\(([^)]+)\)s` (the key may contain anything but `)`). -/
def splitAtParen : List Char → Option (List Char × List Char)
  | [] => none
  | c :: rest =>
    if c = ')' then some ([], rest)
    else
      match splitAtParen rest with
      | none => none
      | some (k, r) => some (c :: k, r)

/-- Match the `([^)]+)s` tail of `_KEYCRE` against the text after `%(`:
a nonempty key, the closing `)`, then a literal `s`; anything else is the
no-match case of `_KEYCRE.match`. -/
def keyRef (l : List Char) : Option (List Char × List Char) :=
  match splitAtParen l with
  | none => none
  | some (key, rest) =>
    match key, rest with
    | [], _ => none
    | _ :: _, 's' :: rest2 => some (key, rest2)
    | _ :: _, _ => none

/-- The `while rest:` loop of `BasicInterpolation._interpolate_some` at one
recursion depth: plain text is copied, `%%` decodes to `%`, `%(key)s` is
resolved through `map` (descending via `descend` when the raw referenced
value itself contains `%`), and any other use of `%` — including a trailing
bare `%` — raises `InterpolationSyntaxError`. The `Nat` is step fuel seeded
with the length of the list; since every step consumes at least one
character, the fuel-exhaustion arm (an arbitrary error) is unreachable, and
it only exists to keep the recursion structural. -/
def interpLoopF (map : String → Option String)
    (descend : String → Except InterpError (List Char)) :
    Nat → List Char → Except InterpError (List Char)
  | _, [] => Except.ok []
  | 0, _ :: _ => Except.error InterpError.badPercent
  | f + 1, c :: rest =>
    if c = '%' then
      match rest with
      | '%' :: tail =>
        (interpLoopF map descend f tail).map (fun t => '%' :: t)
      | '(' :: tail =>
        match keyRef tail with
        | none => Except.error InterpError.badPercent
        | some (key, rest2) =>
          match map (strLower key.asString) with
          | none => Except.error InterpError.missingOption
          | some v =>
            if v.toList.contains '%' then
              match descend v with
              | Except.error e => Except.error e
              | Except.ok sub =>
                (interpLoopF map descend f rest2).map (fun t => sub ++ t)
            else
              (interpLoopF map descend f rest2).map (fun t => v.toList ++ t)
      | _ => Except.error InterpError.badPercent
    else
      (interpLoopF map descend f rest).map (fun t => c :: t)

/-- Model of `_interpolate_some` with its entry depth check: the `Nat` counts the
remaining allowed recursion depth (`MAX_INTERPOLATION_DEPTH - depth`, so a
call at Python depth 11 — `interpAtDepth map 0` — raises
`InterpolationDepthError` immediately, and the `before_get` entry call at
Python depth 1 is `interpAtDepth map 10`). -/
def interpAtDepth (map : String → Option String) :
    Nat → String → Except InterpError (List Char)
  | 0, _ => Except.error InterpError.depthError
  | fuel + 1, v =>
    interpLoopF map (interpAtDepth map fuel) v.toList.length v.toList

/-- Model of `conf.get` on section `root`: take the raw value from the file
when present, else the (stringified) defaults-section entry, then apply
`BasicInterpolation.before_get` to it (which can raise — `Except.error`). -/
def conf_get (opts : List (String × String)) (key dflt : String) :
    Except InterpError String :=
  (interpAtDepth (unifiedLookup opts) 10 ((lookupOpt opts key).getD dflt)).map
    List.asString

/-- Model of `conf.getboolean` on section `root`: the interpolated `conf.get`
value, then boolean conversion (`none` = `ValueError`, caught per field). -/
def conf_getboolean (opts : List (String × String)) (key dflt : String) :
    Except InterpError (Option Bool) :=
  (conf_get opts key dflt).map pyBoolean

/-- Model of `conf.getint` on section `root`: the interpolated `conf.get`
value, then `int(...)` (`none` = `ValueError`, caught per field). -/
def conf_getint (opts : List (String × String)) (key dflt : String) :
    Except InterpError (Option Int) :=
  (conf_get opts key dflt).map pyInt

/-- The `config` dict assembled by `load_config` from successfully parsed
options, getters evaluated in source order: each typed getter falls back to
`DEFAULT_CONFIG[key]` on `ValueError`/`TypeError` (= `none` from the
converters), while an interpolation error from any getter escapes the
per-field handler (`Except.error`). -/
def buildConfig (opts : List (String × String)) : Except InterpError Config := do
  let subreddit ← conf_get opts "subreddit" "wallpaper"
  let nsfw ← conf_getboolean opts "nsfw" "False"
  let display ← conf_getint opts "display" "0"
  let time ← conf_get opts "time" "all"
  let output ← conf_get opts "output" "Wallpapers"
  let sort ← conf_get opts "sort" "hot"
  let limit ← conf_getint opts "limit" "20"
  let random ← conf_getboolean opts "random" "False"
  let flair ← conf_get opts "flair" ""
  pure { subreddit := subreddit,
         nsfw := nsfw.getD DEFAULT_CONFIG.nsfw,
         display := display.getD DEFAULT_CONFIG.display,
         time := time,
         output := output,
         sort := sort,
         limit := limit.getD DEFAULT_CONFIG.limit,
         random := random.getD DEFAULT_CONFIG.random,
         flair := flair }

/-- Model of `load_config`: a missing file falls back to a copy of
`DEFAULT_CONFIG` (`except IOError`); per-field conversion errors fall back per
field inside `buildConfig`; a parse error from `read_string`, like an
interpolation error from any getter, is uncaught, so the module-load aborts
(`none`). -/
def load_config (src : ConfigSource) : Option Config :=
  match src with
  | .missing => some DEFAULT_CONFIG
  | .parseError => none
  | .parsed opts =>
    match buildConfig opts with
    | Except.error _ => none
    | Except.ok c => some c

/-! ## Credential resolution (`load_credentials`, lines 338-350) and the
credential gate of `main` (lines 382-399) -/

/-- Python truthiness test used on credential strings (`None` and `""` falsy). -/
def pyStrTruthy (s : Option String) : Bool :=
  !pyStrFalsy s

/-- Python `a or b` on optional strings: the first operand when truthy,
otherwise the second operand (even if falsy). -/
def pyOr (a b : Option String) : Option String :=
  if pyStrTruthy a then a else b

/-- The observable outcome of opening and `json.load`-ing `credentials.json`:
`none` means `IOError`/`JSONDecodeError` (both caught); `some` carries the
`client_id`/`api_key` members `params.get` finds in the parsed object. -/
structure CredsFile where
  client_id : Option String
  api_key : Option String
deriving DecidableEq, Repr

/-- Model of `load_credentials`: command-line values win when both are truthy;
otherwise the JSON file fills the gaps (`x or params.get(...)`), and a
missing/unparseable file leaves the command-line values as they are. -/
def load_credentials (client_id api_key : Option String)
    (file : Option CredsFile) : Option String × Option String :=
  if pyStrTruthy client_id && pyStrTruthy api_key then (client_id, api_key)
  else
    match file with
    | none => (client_id, api_key)
    | some params =>
      (pyOr client_id params.client_id, pyOr api_key params.api_key)

/-- What the credential phase of `main` does next: either `sys.exit` with the
missing-credentials message (before any network activity), or proceed to
construct the `praw.Reddit` API client with the resolved pair. -/
inductive CredPhase where
  | exitNoCreds
  | initApi (client_id api_key : String)
deriving DecidableEq, Repr

/-- The part of `main` from `load_credentials` to the `praw.Reddit`
construction: `if not (client_id and api_key): sys.exit(...)`, else the API
client is initialized with the resolved credentials. -/
def main_credential_phase (arg_client_id arg_api_key : Option String)
    (file : Option CredsFile) : CredPhase :=
  let resolved := load_credentials arg_client_id arg_api_key file
  if pyStrTruthy resolved.1 && pyStrTruthy resolved.2 then
    .initApi (resolved.1.getD "") (resolved.2.getD "")
  else
    .exitNoCreds

/-! ## Image download (`download_image`, lines 353-373) -/

/-- The outcome of the single `requests.get(url, allow_redirects=False,
timeout=30)` call: either a `requests.RequestException` (network error,
timeout), or a response with a status code and a body. -/
inductive HttpResult where
  | exception
  | response (status : Nat) (body : List Nat)
deriving DecidableEq, Repr

/-- The inputs `download_image` observes: the outcome of the GET for the given URL
and whether `save_location.is_file()` already holds. -/
structure FetchEnv where
  http : HttpResult
  fileExists : Bool
deriving DecidableEq, Repr

/-- What a `download_image` run did: its return value, how many HTTP requests
it issued, and the body written to `save_location` (if any). -/
structure FetchOutcome where
  success : Bool
  httpCalls : Nat
  written : Option (List Nat)
deriving DecidableEq, Repr

/-- Model of `requests.Response.raise_for_status()`: raises `HTTPError` (a
`RequestException`) exactly for client-error (4xx) and server-error (5xx)
status codes — a 3xx redirect status does not raise. -/
def raise_for_status (status : Nat) : Bool :=
  (400 ≤ status && status < 500) || (500 ≤ status && status < 600)

/-- Model of `download_image`: perform the GET first; `raise_for_status`; only then
check `save_location.is_file()` and return early without writing when the file
exists; otherwise write the response body. Any `RequestException` (including
the one from `raise_for_status`) is caught, printed, and reported as `False`. -/
def download_image (env : FetchEnv) : FetchOutcome :=
  match env.http with
  | .exception => { success := false, httpCalls := 1, written := none }
  | .response status body =>
    if raise_for_status status then
      { success := false, httpCalls := 1, written := none }
    else if env.fileExists then
      { success := true, httpCalls := 1, written := none }
    else
      { success := true, httpCalls := 1, written := some body }

/-! ## Saved file path (`main`, lines 407-409) -/

/-- The save path built in `main`: the home directory, the output folder and the
f-string `<subreddit>-<id>.<ext>`, joined by `pathlib` with slashes. -/
def save_location (home save_dir subreddit ident ext : String) : String :=
  home ++ "/" ++ save_dir ++ "/" ++ subreddit ++ "-" ++ ident ++ "." ++ ext

/-! ## Concrete fixtures used to instantiate the theorems -/

/-- Arguments as produced by the built-in defaults, NSFW disabled, with a
`Desktop` flair filter. -/
def fixtureArgs : Args :=
  { subreddit := "wallpaper", time := "all", nsfw := false, display := 0,
    output := "Wallpapers", sort := "hot", limit := 20, random := false,
    flair := "", client_id := none, api_key := none }

/-- The record `fixtureArgs` with the flair filter set to `Desktop`. -/
def fixtureArgsDesktop : Args :=
  { fixtureArgs with flair := "Desktop" }

/-- An adult-flagged post with a directly usable image URL. -/
def fixtureAdultPost : Post :=
  { id := "aaa111", subredditName := "wallpaper",
    url := "https://example.com/adult.jpg", over_18 := true,
    link_flair_text := none }

/-- A clean post with a directly usable image URL. -/
def fixtureCleanPost : Post :=
  { id := "bbb222", subredditName := "wallpaper",
    url := "https://example.com/pic.jpg", over_18 := false,
    link_flair_text := some "4k Desktop Wallpaper" }

/-- A clean post whose flair text is `Mobile`. -/
def fixtureMobilePost : Post :=
  { id := "ccc333", subredditName := "wallpaper",
    url := "https://example.com/phone.png", over_18 := false,
    link_flair_text := some "Mobile" }

/-- The candidate `get_top_image` builds from `fixtureCleanPost`. -/
def fixtureCleanCandidate : Candidate :=
  { id := "bbb222", subreddit := "wallpaper",
    url := "https://example.com/pic.jpg", type := "jpg" }

/-- A fetch environment where the target file already exists but the GET
returns HTTP 404. -/
def fixtureEnv404Existing : FetchEnv :=
  { http := .response 404 [], fileExists := true }

/-- A fetch environment where the target file already exists and the GET
returns HTTP 200. -/
def fixtureEnv200Existing : FetchEnv :=
  { http := .response 200 [137, 80], fileExists := true }

/-- A fetch environment with a fresh target path where the GET returns an
HTTP 302 redirect carrying a small HTML body. -/
def fixtureEnv302Fresh : FetchEnv :=
  { http := .response 302 [60, 104, 116, 109, 108, 62], fileExists := false }

/-! ## Helper lemmas -/

/-- Unfolding `List.find?` on a cons cell as an `if`. -/
theorem find?_cons_if {α : Type} (f : α → Bool) (a : α) (l : List α) :
    List.find? f (a :: l) = if f a then some a else List.find? f l := by
  by_cases h : f a = true
  · rw [List.find?_cons_of_pos _ h, if_pos h]
  · rw [List.find?_cons_of_neg _ h, if_neg h]

/-- The selection loop of `get_top_image` computes exactly the spec-side
"first post surviving all filters" selector. -/
theorem loop_eq_selectSpec (args : Args) (l : List Post) :
    get_top_image_loop args l = selectSpec args l := by
  induction l with
  | nil => rfl
  | cons p rest ih =>
    rw [get_top_image_loop]
    rw [show selectSpec args (p :: rest) =
        if survives args p then (classifyUrl p.url).map (mkCandidate p)
        else selectSpec args rest from by
      rw [selectSpec, find?_cons_if]
      by_cases h : survives args p = true
      · rw [if_pos h, if_pos h]; rfl
      · rw [if_neg h, if_neg h]; rfl]
    rcases hn : args.nsfw <;> rcases h18 : p.over_18 <;>
      rcases hf : flairSkip args p <;> rcases hc : classifyUrl p.url with _ | uc <;>
        simp [survives, hn, h18, hf, hc, ih]

/-- Any candidate the selection loop returns on an NSFW-disabled run comes from
a batch post whose `over_18` flag is false (and is the classified
image of that post). -/
theorem loop_nsfw_filter (args : Args) (hn : args.nsfw = false) :
    ∀ (l : List Post) (c : Candidate), get_top_image_loop args l = some c →
      ∃ p, p ∈ l ∧ p.over_18 = false ∧
        ∃ uc, classifyUrl p.url = some uc ∧ c = mkCandidate p uc := by
  intro l
  induction l with
  | nil => intro c h; simp [get_top_image_loop] at h
  | cons p rest ih =>
    intro c h
    rw [get_top_image_loop] at h
    rcases h18 : p.over_18
    · rw [hn] at h
      simp only [h18, Bool.not_false, Bool.and_false, Bool.false_eq_true,
        if_false] at h
      by_cases hf : flairSkip args p = true
      · rw [if_pos hf] at h
        obtain ⟨q, hq, h2⟩ := ih c h
        exact ⟨q, List.mem_cons_of_mem _ hq, h2⟩
      · rw [if_neg hf] at h
        rcases hc : classifyUrl p.url with _ | uc
        · rw [hc] at h
          obtain ⟨q, hq, h2⟩ := ih c h
          exact ⟨q, List.mem_cons_of_mem _ hq, h2⟩
        · rw [hc] at h
          injection h with h
          exact ⟨p, List.mem_cons_self p rest, h18, uc, hc, h.symm⟩
    · rw [hn, h18] at h
      simp only [Bool.not_false, Bool.and_true, if_true] at h
      obtain ⟨q, hq, h2⟩ := ih c h
      exact ⟨q, List.mem_cons_of_mem _ hq, h2⟩

/-! ## Claim theorems -/

/-- C9: `get_top_image` returns the first post — in the evaluated order, i.e.
the retrieved order, or the shuffled order when the `random` option is set —
that survives the NSFW, flair and URL-classification filters (mapped to its
result dict), and returns `none` when the batch is exhausted without a
survivor. -/
theorem get_top_image_returns_first_survivor (args : Args)
    (retrieved shuffled : List Post) :
    get_top_image args retrieved shuffled =
      selectSpec args (if args.random then shuffled else retrieved) := by
  unfold get_top_image
  exact loop_eq_selectSpec args _

/-- C5: on a run with NSFW disabled, every candidate the selector returns
originates from a post of the evaluated batch whose adult-content flag
`over_18` is false — no adult-flagged post is ever selected. -/
theorem nsfw_disabled_never_selects_adult (args : Args)
    (retrieved shuffled : List Post) (c : Candidate) (hn : args.nsfw = false)
    (h : get_top_image args retrieved shuffled = some c) :
    ∃ p, p ∈ (if args.random then shuffled else retrieved) ∧
      p.over_18 = false ∧
      ∃ uc, classifyUrl p.url = some uc ∧ c = mkCandidate p uc := by
  unfold get_top_image at h
  exact loop_nsfw_filter args hn _ c h

/-- Witness for C5: a concrete NSFW-disabled run over a batch whose first post
is adult-flagged selects the clean second post. -/
theorem nsfw_disabled_never_selects_adult_witness :
    ∃ p, p ∈ (if fixtureArgs.random then ([] : List Post)
               else [fixtureAdultPost, fixtureCleanPost]) ∧
      p.over_18 = false ∧
      ∃ uc, classifyUrl p.url = some uc ∧
        fixtureCleanCandidate = mkCandidate p uc :=
  nsfw_disabled_never_selects_adult fixtureArgs
    [fixtureAdultPost, fixtureCleanPost] [] fixtureCleanCandidate
    (by decide) (by decide)

/-- C6: with a configured (non-empty) flair filter and a post carrying flair
text, the flair predicate passes the post exactly when the filter occurs
case-insensitively as a substring of the flair text (absent or empty flair
text never passes). -/
theorem flair_filter_is_ci_substring (args : Args) (p : Post) (t : String)
    (hfl : args.flair ≠ "") (ht : p.link_flair_text = some t) :
    flairSkip args p = false ↔
      (t ≠ "" ∧ strContains (strLower t) (strLower args.flair) = true) := by
  have hb : (args.flair != "") = true := by simpa using hfl
  simp [flairSkip, ht, pyStrFalsy, hb]

/-- Witness for C6: with filter `Desktop`, the post with flair text
`4k Desktop Wallpaper` passes and the post with flair text `Mobile` is
skipped. -/
theorem flair_filter_is_ci_substring_witness :
    flairSkip fixtureArgsDesktop fixtureCleanPost = false ∧
    flairSkip fixtureArgsDesktop fixtureMobilePost = true := by
  constructor
  · exact (flair_filter_is_ci_substring fixtureArgsDesktop fixtureCleanPost
      "4k Desktop Wallpaper" (by decide) rfl).mpr (by decide)
  · decide

/-- C10: any submission URL that, after stripping the query string, ends in
`.jpg`, `.png` or `.jpeg` is classified as itself, unchanged, with the
lowercased final dot-segment as its type tag — the direct-extension branch
runs first, so this holds in particular for `imgur.com` URLs, which are then
not rewritten to the `i.imgur.com` form. -/
theorem direct_extension_takes_precedence (url : String)
    (h : (strEndsWith (stripQuery url) ".jpg" ||
          strEndsWith (stripQuery url) ".png" ||
          strEndsWith (stripQuery url) ".jpeg") = true) :
    classifyUrl url =
      some (stripQuery url,
        strLower ((strSplitOn '.' (stripQuery url)).getLastD "")) := by
  simp only [classifyUrl]
  rw [if_pos h]

/-- Witness for C10: an `imgur.com` URL with a direct `.jpg` extension passes
through unchanged (no `i.imgur.com` rewrite). -/
theorem direct_extension_takes_precedence_witness :
    strContains (stripQuery "https://imgur.com/abc123.jpg?x=1") "imgur.com" =
      true ∧
    classifyUrl "https://imgur.com/abc123.jpg?x=1" =
      some ("https://imgur.com/abc123.jpg", "jpg") := by
  refine ⟨by decide, ?_⟩
  rw [direct_extension_takes_precedence "https://imgur.com/abc123.jpg?x=1"
    (by decide)]
  decide

/-- C3 counterexample: the classifier does NOT rewrite
`https://imgur.com/abc123.png?x=1` to `http://i.imgur.com/abc123.jpg` — after
stripping the query the URL ends in `.png`, so the direct-extension branch
returns it unchanged. -/
theorem imgur_png_rewrite_counterexample :
    classifyUrl "https://imgur.com/abc123.png?x=1" ≠
      some ("http://i.imgur.com/abc123.jpg", "jpg") := by decide

/-- C3 amended: `https://imgur.com/abc123.png?x=1` classifies as the stripped
URL `https://imgur.com/abc123.png` with type `png`; the `i.imgur.com` rewrite
is produced for an Imgur page link without a direct image extension, e.g.
`https://imgur.com/abc123?x=1` yields `http://i.imgur.com/abc123.jpg`. -/
theorem imgur_url_classification_amended :
    classifyUrl "https://imgur.com/abc123.png?x=1" =
      some ("https://imgur.com/abc123.png", "png") ∧
    classifyUrl "https://imgur.com/abc123?x=1" =
      some ("http://i.imgur.com/abc123.jpg", "jpg") := by decide

/-- C1 counterexample: with the target file already on disk but the GET
returning status 404, `download_image` still performs one HTTP call and
reports failure — refuting "no HTTP call and success" for existing paths. -/
theorem download_existing_path_counterexample :
    fixtureEnv404Existing.fileExists = true ∧
    ¬ ((download_image fixtureEnv404Existing).httpCalls = 0 ∧
       (download_image fixtureEnv404Existing).success = true) := by decide

/-- C1 amended: when the target path already exists, `download_image` still
performs exactly one HTTP GET and never rewrites the file; it reports success
(reusing the existing file) exactly when the GET produced a response whose
status survives `raise_for_status` — a network exception or 4xx/5xx status is
reported as failure despite the existing file. -/
theorem download_existing_file_behaviour (env : FetchEnv)
    (h : env.fileExists = true) :
    (download_image env).httpCalls = 1 ∧
    (download_image env).written = none ∧
    ((download_image env).success = true ↔
      ∃ status body, env.http = .response status body ∧
        raise_for_status status = false) := by
  rcases env with ⟨http, fe⟩
  simp only at h
  subst h
  rcases http with _ | ⟨s, b⟩
  · simp [download_image]
  · rcases hr : raise_for_status s
    · simp [download_image, hr]
    · simp [download_image, hr]

/-- Witness for C1 amended: existing file, GET answers 200 — one HTTP call,
no write, success reported. -/
theorem download_existing_file_behaviour_witness :
    (download_image fixtureEnv200Existing).httpCalls = 1 ∧
    (download_image fixtureEnv200Existing).written = none ∧
    ((download_image fixtureEnv200Existing).success = true ↔
      ∃ status body, fixtureEnv200Existing.http = .response status body ∧
        raise_for_status status = false) :=
  download_existing_file_behaviour fixtureEnv200Existing rfl

/-- C2 counterexample: on a 302 redirect response with a fresh target path,
`download_image` reports success and writes the redirect response body —
refuting "a redirect response is treated as a download failure and nothing is
written". -/
theorem redirect_treated_as_failure_counterexample :
    (download_image fixtureEnv302Fresh).success = true ∧
    (download_image fixtureEnv302Fresh).written =
      some [60, 104, 116, 109, 108, 62] := by decide

/-- C2 amended: a redirect (3xx) response is indeed not followed — the single
GET is issued with redirects disabled and no further call happens — but it is
not treated as a failure: `raise_for_status` raises only for 4xx/5xx, so
`download_image` reports success and, when the target path is fresh, writes
the redirect response body to it. -/
theorem redirect_not_followed_not_failure (env : FetchEnv) (status : Nat)
    (body : List Nat) (hh : env.http = .response status body)
    (h3 : 300 ≤ status) (h4 : status < 400) :
    (download_image env).httpCalls = 1 ∧
    (download_image env).success = true ∧
    (download_image env).written =
      (if env.fileExists then none else some body) := by
  have hr : raise_for_status status = false := by
    simp [raise_for_status]
    omega
  rcases env with ⟨http, fe⟩
  simp only at hh
  subst hh
  cases fe <;> simp [download_image, hr]

/-- Witness for C2 amended: concrete 302 response on a fresh path — one call,
success, body written. -/
theorem redirect_not_followed_not_failure_witness :
    (download_image fixtureEnv302Fresh).httpCalls = 1 ∧
    (download_image fixtureEnv302Fresh).success = true ∧
    (download_image fixtureEnv302Fresh).written =
      (if fixtureEnv302Fresh.fileExists then none
       else some [60, 104, 116, 109, 108, 62]) :=
  redirect_not_followed_not_failure fixtureEnv302Fresh 302
    [60, 104, 116, 109, 108, 62] rfl (by decide) (by decide)

/-- C7: when, after combining the command-line flags with the fallback JSON
credentials file, either the client id or the api key is still missing (absent
or empty), the credential phase of `main` exits with the fatal
missing-credentials message and the Reddit API client is never constructed —
no network call is attempted. -/
theorem missing_credentials_exit_before_api
    (arg_client_id arg_api_key : Option String) (file : Option CredsFile)
    (h : ¬ (pyStrTruthy
              (load_credentials arg_client_id arg_api_key file).1 = true ∧
            pyStrTruthy
              (load_credentials arg_client_id arg_api_key file).2 = true)) :
    main_credential_phase arg_client_id arg_api_key file =
      CredPhase.exitNoCreds := by
  have hcond : (pyStrTruthy (load_credentials arg_client_id arg_api_key file).1
      && pyStrTruthy (load_credentials arg_client_id arg_api_key file).2)
      = false := by
    rcases h1 : pyStrTruthy (load_credentials arg_client_id arg_api_key file).1
      <;> rcases h2 :
        pyStrTruthy (load_credentials arg_client_id arg_api_key file).2
      <;> simp_all
  simp [main_credential_phase, hcond]

/-- Witness for C7: no flags and no readable credentials file — the run exits
before the API client is constructed. -/
theorem missing_credentials_exit_before_api_witness :
    main_credential_phase none none none = CredPhase.exitNoCreds :=
  missing_credentials_exit_before_api none none none (by decide)

/-- C4 counterexample: a configuration file rejected by the INI parser (for
example the one-line file `garbage`, which has no key delimiter) makes
`conf.read_string` raise `configparser.ParsingError`; that exception is
neither the `IOError` caught around the block nor the `ValueError`/`TypeError`
caught per field, so `load_config` aborts the run instead of falling back. -/
theorem load_config_parse_error_aborts :
    load_config ConfigSource.parseError = none := rfl

/-- A terminating-at-ten unfolding of the interpolation entry point (the
`before_get` call at Python depth 1). -/
theorem interpAtDepth_ten (map : String → Option String) (v : String) :
    interpAtDepth map 10 v =
      interpLoopF map (interpAtDepth map 9) v.toList.length v.toList := rfl

/-- Converting a character list to a string and back is the identity. -/
theorem asString_toList (s : String) : s.toList.asString = s := rfl

/-- Interpolating a percent-free character list copies it unchanged, for any
sufficient step fuel. -/
theorem interpLoopF_no_percent (map : String → Option String)
    (descend : String → Except InterpError (List Char)) :
    ∀ (f : Nat) (l : List Char), l.length ≤ f → '%' ∉ l →
      interpLoopF map descend f l = Except.ok l := by
  intro f
  induction f with
  | zero =>
    intro l hl _
    cases l with
    | nil => rfl
    | cons c rest => simp at hl
  | succ f ih =>
    intro l hl hnp
    cases l with
    | nil => rfl
    | cons c rest =>
      by_cases hc : c = '%'
      · subst hc
        exact absurd (List.mem_cons_self _ _) hnp
      · have h1 : rest.length ≤ f := by
          simp only [List.length_cons] at hl
          omega
        have h2 : '%' ∉ rest := fun hm => hnp (List.mem_cons_of_mem _ hm)
        simp only [interpLoopF, if_neg hc, ih rest h1 h2, Except.map]

/-- A key the file does not set is read from the defaults section; every
stringified default is percent-free, so interpolation returns it unchanged. -/
theorem conf_get_unset (opts : List (String × String)) (key dflt : String)
    (hl : lookupOpt opts key = none) (hnp : '%' ∉ dflt.toList) :
    conf_get opts key dflt = Except.ok dflt := by
  unfold conf_get
  rw [hl, Option.getD_none, interpAtDepth_ten,
    interpLoopF_no_percent _ _ _ _ (Nat.le_refl _) hnp]
  simp only [Except.map]
  exact congrArg Except.ok (asString_toList dflt)

/-- An optional value whose `getD` result differs from the default must be
`some` of that result. -/
theorem getD_ne_default {α : Type} (o : Option α) (d : α)
    (h : o.getD d ≠ d) : o = some (o.getD d) := by
  rcases o with _ | x
  · exact absurd rfl h
  · rfl

/-- Inversion of a successful `Except` bind. -/
theorem except_bind_ok {ε α β : Type} (x : Except ε α) (f : α → Except ε β)
    (c : β) (h : x.bind f = Except.ok c) :
    ∃ v, x = Except.ok v ∧ f v = Except.ok c := by
  cases x with
  | error e => simp [Except.bind] at h
  | ok v => exact ⟨v, rfl, h⟩

/-- Inversion of a successful `Except` map. -/
theorem except_map_ok {ε α β : Type} (x : Except ε α) (g : α → β) (b : β)
    (h : x.map g = Except.ok b) : ∃ a, x = Except.ok a ∧ g a = b := by
  cases x with
  | error e => simp [Except.map] at h
  | ok a =>
    refine ⟨a, rfl, ?_⟩
    simpa [Except.map] using h

/-- C4 amended: `load_config` recovers from a missing file (the full defaults)
and from per-field conversion errors (that one field keeps its default), and
when every getter succeeds a field moves away from its default only when the
file sets that key and its interpolated value converts to the new field value;
however the run aborts in two cases — a file the INI parser rejects (uncaught
`ParsingError`), and a parsed file on which some getter raises an
interpolation error at get-time (uncaught `InterpolationError`, e.g. a value
ending in a bare `%`), so neither "never aborts" nor "aborts only on parser
rejection" holds. -/
theorem load_config_fallback_per_field (src : ConfigSource) :
    (src = ConfigSource.missing → load_config src = some DEFAULT_CONFIG) ∧
    (load_config src = none ↔
      src = ConfigSource.parseError ∨
      ∃ opts e, src = ConfigSource.parsed opts ∧
        buildConfig opts = Except.error e) ∧
    (∀ opts c, src = ConfigSource.parsed opts →
      buildConfig opts = Except.ok c →
      (c.subreddit ≠ DEFAULT_CONFIG.subreddit →
        ∃ raw, lookupOpt opts "subreddit" = some raw ∧
          conf_get opts "subreddit" "wallpaper" = Except.ok c.subreddit) ∧
      (c.time ≠ DEFAULT_CONFIG.time →
        ∃ raw, lookupOpt opts "time" = some raw ∧
          conf_get opts "time" "all" = Except.ok c.time) ∧
      (c.output ≠ DEFAULT_CONFIG.output →
        ∃ raw, lookupOpt opts "output" = some raw ∧
          conf_get opts "output" "Wallpapers" = Except.ok c.output) ∧
      (c.sort ≠ DEFAULT_CONFIG.sort →
        ∃ raw, lookupOpt opts "sort" = some raw ∧
          conf_get opts "sort" "hot" = Except.ok c.sort) ∧
      (c.flair ≠ DEFAULT_CONFIG.flair →
        ∃ raw, lookupOpt opts "flair" = some raw ∧
          conf_get opts "flair" "" = Except.ok c.flair) ∧
      (c.nsfw ≠ DEFAULT_CONFIG.nsfw →
        ∃ raw v, lookupOpt opts "nsfw" = some raw ∧
          conf_get opts "nsfw" "False" = Except.ok v ∧
          pyBoolean v = some c.nsfw) ∧
      (c.random ≠ DEFAULT_CONFIG.random →
        ∃ raw v, lookupOpt opts "random" = some raw ∧
          conf_get opts "random" "False" = Except.ok v ∧
          pyBoolean v = some c.random) ∧
      (c.display ≠ DEFAULT_CONFIG.display →
        ∃ raw v, lookupOpt opts "display" = some raw ∧
          conf_get opts "display" "0" = Except.ok v ∧
          pyInt v = some c.display) ∧
      (c.limit ≠ DEFAULT_CONFIG.limit →
        ∃ raw v, lookupOpt opts "limit" = some raw ∧
          conf_get opts "limit" "20" = Except.ok v ∧
          pyInt v = some c.limit)) := by
  rcases src with _ | _ | opts0
  · exact ⟨(fun _ => rfl), (by simp [load_config]),
      (fun opts c heq => by cases heq)⟩
  · exact ⟨(fun h => by cases h), (by simp [load_config]),
      (fun opts c heq => by cases heq)⟩
  · refine ⟨(fun h => by cases h), ?_, ?_⟩
    · rcases hb : buildConfig opts0 with e | c
      · simp [load_config, hb]
      · simp [load_config, hb]
    · intro opts c heq hok
      cases heq
      unfold buildConfig at hok
      obtain ⟨v1, h1, hok⟩ := except_bind_ok _ _ _ hok
      obtain ⟨b2, h2, hok⟩ := except_bind_ok _ _ _ hok
      obtain ⟨i3, h3, hok⟩ := except_bind_ok _ _ _ hok
      obtain ⟨v4, h4, hok⟩ := except_bind_ok _ _ _ hok
      obtain ⟨v5, h5, hok⟩ := except_bind_ok _ _ _ hok
      obtain ⟨v6, h6, hok⟩ := except_bind_ok _ _ _ hok
      obtain ⟨i7, h7, hok⟩ := except_bind_ok _ _ _ hok
      obtain ⟨b8, h8, hok⟩ := except_bind_ok _ _ _ hok
      obtain ⟨v9, h9, hok⟩ := except_bind_ok _ _ _ hok
      injection hok with hok
      subst hok
      have hstr : ∀ (key dflt val : String), lookupOpt opts0 key = none →
          '%' ∉ dflt.toList → conf_get opts0 key dflt = Except.ok val →
          val = dflt := by
        intro key dflt val hl hnp hg
        have hd := conf_get_unset opts0 key dflt hl hnp
        rw [hg] at hd
        exact Except.ok.inj hd
      refine ⟨?_, ?_, ?_, ?_, ?_, ?_, ?_, ?_, ?_⟩
      · intro hne
        rcases hl : lookupOpt opts0 "subreddit" with _ | raw
        · exact absurd (hstr _ _ _ hl (by decide) h1) hne
        · exact ⟨raw, rfl, h1⟩
      · intro hne
        rcases hl : lookupOpt opts0 "time" with _ | raw
        · exact absurd (hstr _ _ _ hl (by decide) h4) hne
        · exact ⟨raw, rfl, h4⟩
      · intro hne
        rcases hl : lookupOpt opts0 "output" with _ | raw
        · exact absurd (hstr _ _ _ hl (by decide) h5) hne
        · exact ⟨raw, rfl, h5⟩
      · intro hne
        rcases hl : lookupOpt opts0 "sort" with _ | raw
        · exact absurd (hstr _ _ _ hl (by decide) h6) hne
        · exact ⟨raw, rfl, h6⟩
      · intro hne
        rcases hl : lookupOpt opts0 "flair" with _ | raw
        · exact absurd (hstr _ _ _ hl (by decide) h9) hne
        · exact ⟨raw, rfl, h9⟩
      · intro hne
        obtain ⟨v, hv, hpb⟩ := except_map_ok _ _ _ h2
        rcases hl : lookupOpt opts0 "nsfw" with _ | raw
        · have hvd : v = "False" := hstr _ _ _ hl (by decide) hv
          refine absurd ?_ hne
          show b2.getD DEFAULT_CONFIG.nsfw = DEFAULT_CONFIG.nsfw
          rw [hpb.symm, hvd]
          decide
        · refine ⟨raw, v, rfl, hv, ?_⟩
          rw [hpb]
          exact getD_ne_default b2 DEFAULT_CONFIG.nsfw hne
      · intro hne
        obtain ⟨v, hv, hpb⟩ := except_map_ok _ _ _ h8
        rcases hl : lookupOpt opts0 "random" with _ | raw
        · have hvd : v = "False" := hstr _ _ _ hl (by decide) hv
          refine absurd ?_ hne
          show b8.getD DEFAULT_CONFIG.random = DEFAULT_CONFIG.random
          rw [hpb.symm, hvd]
          decide
        · refine ⟨raw, v, rfl, hv, ?_⟩
          rw [hpb]
          exact getD_ne_default b8 DEFAULT_CONFIG.random hne
      · intro hne
        obtain ⟨v, hv, hpb⟩ := except_map_ok _ _ _ h3
        rcases hl : lookupOpt opts0 "display" with _ | raw
        · have hvd : v = "0" := hstr _ _ _ hl (by decide) hv
          refine absurd ?_ hne
          show i3.getD DEFAULT_CONFIG.display = DEFAULT_CONFIG.display
          rw [hpb.symm, hvd]
          decide
        · refine ⟨raw, v, rfl, hv, ?_⟩
          rw [hpb]
          exact getD_ne_default i3 DEFAULT_CONFIG.display hne
      · intro hne
        obtain ⟨v, hv, hpb⟩ := except_map_ok _ _ _ h7
        rcases hl : lookupOpt opts0 "limit" with _ | raw
        · have hvd : v = "20" := hstr _ _ _ hl (by decide) hv
          refine absurd ?_ hne
          show i7.getD DEFAULT_CONFIG.limit = DEFAULT_CONFIG.limit
          rw [hpb.symm, hvd]
          decide
        · refine ⟨raw, v, rfl, hv, ?_⟩
          rw [hpb]
          exact getD_ne_default i7 DEFAULT_CONFIG.limit hne

/-- Witness for C4 amended: a missing file yields the defaults; a parsed file
whose `flair` value ends in a bare `%` makes `load_config` abort with an
uncaught interpolation error; and on the parsed file setting only `nsfw` to
`yes`, the amended theorem yields the raw value and its interpolated,
converted reading for the one changed field. -/
theorem load_config_fallback_per_field_witness :
    load_config ConfigSource.missing = some DEFAULT_CONFIG ∧
    load_config (ConfigSource.parsed [("flair", "100%")]) = none ∧
    (∃ raw v, lookupOpt [("nsfw", "yes")] "nsfw" = some raw ∧
      conf_get [("nsfw", "yes")] "nsfw" "False" = Except.ok v ∧
      pyBoolean v =
        some ({ DEFAULT_CONFIG with nsfw := true } : Config).nsfw) := by
  refine ⟨(load_config_fallback_per_field ConfigSource.missing).1 rfl, ?_, ?_⟩
  · exact (load_config_fallback_per_field
      (ConfigSource.parsed [("flair", "100%")])).2.1.mpr
      (Or.inr ⟨[("flair", "100%")], InterpError.badPercent, rfl, rfl⟩)
  · exact ((load_config_fallback_per_field
      (ConfigSource.parsed [("nsfw", "yes")])).2.2 [("nsfw", "yes")]
      { DEFAULT_CONFIG with nsfw := true } rfl rfl).2.2.2.2.2.1 (by decide)

/-- C8 counterexample: the path-building scheme `<subreddit>-<id>.<ext>` is not
injective for arbitrary strings — subreddit `a-b` with post id `c` collides
with subreddit `a` and post id `b-c`, although the triples differ. -/
theorem save_location_collision_counterexample :
    save_location "/home/user" "Wallpapers" "a-b" "c" "jpg" =
      save_location "/home/user" "Wallpapers" "a" "b-c" "jpg" ∧
    ("a-b", "c", "jpg") ≠ (("a", "b-c", "jpg") : String × String × String) := by
  decide

/-- A separator character that occurs in neither left part marks a unique
split point: `a ++ c :: r = b ++ c :: s` with `c ∉ a`, `c ∉ b` forces `a = b`
and `r = s`. -/
theorem firstSepUnique (c : Char) :
    ∀ (a b r s : List Char), c ∉ a → c ∉ b →
      a ++ c :: r = b ++ c :: s → a = b ∧ r = s := by
  intro a
  induction a with
  | nil =>
    intro b r s _ hb h
    cases b with
    | nil =>
      simp only [List.nil_append] at h
      injection h with _ h2
      exact ⟨rfl, h2⟩
    | cons y bs =>
      rw [List.nil_append, List.cons_append] at h
      injection h with h1 h2
      exact absurd (by rw [h1]; exact List.mem_cons_self y bs) hb
  | cons x as ih =>
    intro b r s ha hb h
    cases b with
    | nil =>
      rw [List.nil_append, List.cons_append] at h
      injection h with h1 h2
      exact absurd (by rw [← h1]; exact List.mem_cons_self x as) ha
    | cons y bs =>
      rw [List.cons_append, List.cons_append] at h
      injection h with h1 h2
      have hrec := ih bs r s (fun hm => ha (List.mem_cons_of_mem _ hm))
        (fun hm => hb (List.mem_cons_of_mem _ hm)) h2
      exact ⟨by rw [h1, hrec.1], hrec.2⟩

/-- C8 amended: the saved file path `<home>/<output-dir>/<subreddit>-<id>.<ext>`
determines the triple (subreddit, post id, extension) — and hence two
selections with different triples get distinct paths — provided the post id
contains no `-` and the extension no `.` (Reddit ids are base36 alphanumerics,
and the selector only ever produces the extensions `jpg`, `png`, `jpeg`);
without that proviso, ids containing `-` collide across subreddits. -/
theorem save_location_determined_by_triple
    (home dir s1 i1 e1 s2 i2 e2 : String)
    (hi1 : '-' ∉ i1.toList) (he1 : '.' ∉ e1.toList)
    (hi2 : '-' ∉ i2.toList) (he2 : '.' ∉ e2.toList)
    (h : save_location home dir s1 i1 e1 = save_location home dir s2 i2 e2) :
    s1 = s2 ∧ i1 = i2 ∧ e1 = e2 := by
  have hd := congrArg String.data h
  simp only [save_location, String.data_append] at hd
  simp only [List.append_assoc, List.singleton_append, List.cons_append,
    List.nil_append] at hd
  have hd2 := List.append_cancel_left hd
  injection hd2 with _ hd3
  have hd4 := List.append_cancel_left hd3
  injection hd4 with _ hd5
  have hrev := congrArg List.reverse hd5
  simp only [List.reverse_append, List.reverse_cons, List.append_assoc,
    List.singleton_append, List.nil_append] at hrev
  obtain ⟨hee, hrest⟩ := firstSepUnique '.' e1.data.reverse e2.data.reverse _ _
    (by simpa using he1) (by simpa using he2) hrev
  obtain ⟨hii, hss⟩ := firstSepUnique '-' i1.data.reverse i2.data.reverse _ _
    (by simpa using hi1) (by simpa using hi2) hrest
  refine ⟨?_, ?_, ?_⟩
  · cases s1; cases s2
    exact congrArg String.mk (List.reverse_injective hss)
  · cases i1; cases i2
    exact congrArg String.mk (List.reverse_injective hii)
  · cases e1; cases e2
    exact congrArg String.mk (List.reverse_injective hee)

/-- Witness for C8 amended: applying the determination theorem at a concrete
pair of equal paths with a base36 id and `jpg` extension. -/
theorem save_location_determined_by_triple_witness :
    ("wallpaper" : String) = "wallpaper" ∧
    ("abc42x" : String) = "abc42x" ∧ ("jpg" : String) = "jpg" :=
  save_location_determined_by_triple "/home/user" "Wallpapers"
    "wallpaper" "abc42x" "jpg" "wallpaper" "abc42x" "jpg"
    (by decide) (by decide) (by decide) (by decide) rfl
